import Mathlib

/-!
Verification of the conversational session loops in `src/treasureisland.py` and
`src/wargames.py`.

Both programs are thin interactive loops around a remote chat-completion
service: they keep an ordered transcript of `{role, content}` messages, trim it
to a bounded window, call the service, render the response, detect
end-of-session keywords, and read the next user action.

Python strings are embedded as Lean `String` (a packed `List Char`); the
Python string operations used by the programs (`str.strip`, `str.lower`,
slicing `[:n]`, `startswith`, the substring operator `in`, `len`) are defined
below by structural recursion on the character list so that every definition
is executable by kernel reduction.

The remote completion service is external: each call's outcome is an
environment parameter of type `Outcome` (generated text or one of the typed
failures the code catches).  Wall-clock sleeps are recorded as the list of
slept durations in seconds.
-/

set_option maxRecDepth 20000

/-- Python `str.isspace` restricted to the ASCII whitespace characters
(space, tab, newline, carriage return, vertical tab, form feed); the inputs
relevant to the programs are ASCII. -/
def py_isspace (c : Char) : Bool :=
  c == ' ' || c == '\t' || c == '\n' || c == '\r' || c == '\x0b' || c == '\x0c'

/-- Python `s.strip()`: remove leading and trailing whitespace. -/
def py_strip (s : String) : String :=
  ⟨((s.data.dropWhile py_isspace).reverse.dropWhile py_isspace).reverse⟩

/-- Python `s.lower()` (ASCII case folding, which covers all inputs the
programs compare). -/
def py_lower (s : String) : String :=
  ⟨s.data.map Char.toLower⟩

/-- Python `len(s)` (number of characters). -/
def py_len (s : String) : Nat := s.data.length

/-- Python slicing `s[:n]`: the first `n` characters. -/
def py_slice_to (s : String) (n : Nat) : String := ⟨s.data.take n⟩

/-- Python `s.startswith(p)`. -/
def py_startswith (s p : String) : Bool :=
  s.data.take p.data.length == p.data

/-- Python substring containment `needle in hay`. -/
def py_in (needle hay : String) : Bool :=
  (List.range (py_len hay + 1)).any fun i =>
    (hay.data.drop i).take needle.data.length == needle.data

/-- A chat message, Python dict `{"role": role, "content": content}`. -/
structure Message where
  role : String
  content : String
deriving DecidableEq, Repr

/-- Outcome of one call to the remote completion service, the cases the two
programs distinguish with `except` clauses: generated text, or one of the
typed failures `openai.RateLimitError`, `openai.APIConnectionError`,
`openai.AuthenticationError`, or any other exception (carrying its `str`). -/
inductive Outcome where
  | success (text : String)
  | rateLimitError
  | apiConnectionError
  | authenticationError
  | otherError (msg : String)
deriving DecidableEq, Repr

/-- Truthiness of `os.getenv(name)` being absent or empty: Python
`not api_key` is true for `None` and for the empty string. -/
def env_var_falsy : Option String → Bool
  | none => true
  | some s => s == ""

/-- Outcome of the start-up credential check, before the session loop. -/
inductive StartupOutcome where
  | exitProcess (code : Nat)
  | returnFromMain
  | proceed
deriving DecidableEq, Repr

namespace TreasureIsland

/-- `game_instructions` of `src/treasureisland.py` (lines 53-81), the system
prompt. -/
def game_instructions : String :=
"
You are a game master for a retro text-based adventure game named \"Treasure Island\" inspired by Robert Louis Stevenson's classic novel.

GAME RULES:
- Create an immersive pirate adventure with rich descriptions
- Present 3-4 clear action options after each scenario, but allow creative player inputs
- Track the player's inventory, health, and relationships with characters
- Include puzzles, combat, exploration, and character interactions
- Generate simple ASCII art (max 10 lines) for key scenes and locations
- Use atmospheric language with nautical and pirate terminology
- Create branching storylines based on player choices
- Include elements of danger, mystery, and treasure hunting

RESPONSE FORMAT:
1. Provide vivid scene description
2. Show ASCII art if appropriate for the scene
3. Present numbered action options (1-4)
4. Note: \"Or describe your own action\"

GAME STATE:
Keep track of:
- Player's current location
- Inventory items
- Health/condition
- Key NPCs and their attitudes toward the player
- Quest progress

Start the adventure with the player arriving at a mysterious island, having heard rumors of buried treasure.
"

/-- `get_ai_response` of `src/treasureisland.py` (lines 83-98): a single call,
no retry; each caught exception is mapped to a sentinel string starting with
the warning sign.  `openai.APIConnectionError` has no dedicated clause there
and falls into the generic `except Exception` branch (its `str(e)` is carried
by `Outcome.otherError`). -/
def get_ai_response (o : Outcome) : String :=
  match o with
  | .success t => t
  | .rateLimitError => "⚠️ Rate limit exceeded. Please wait a moment and try again."
  | .authenticationError => "⚠️ Authentication error. Please check your OpenAI API key."
  | .apiConnectionError => "⚠️ Error getting AI response: Connection error."
  | .otherError m => "⚠️ Error getting AI response: " ++ m

/-- `validate_user_input` of `src/treasureisland.py` (lines 100-107):
`None` for empty or whitespace-only input, otherwise the stripped input
truncated to 500 characters. -/
def validate_user_input (user_input : String) : Option String :=
  if user_input == "" || py_strip user_input == "" then none
  else some (py_slice_to (py_strip user_input) 500)

/-- The end-of-game keyword list of `src/treasureisland.py` (lines 152-153). -/
def end_keywords : List String :=
  ["game over", "adventure ended", "the end", "you have died", "treasure found"]

/-- The termination check of `src/treasureisland.py` (lines 152-153):
`any(keyword in ai_response.lower() for keyword in ...)`. -/
def is_terminal (ai_response : String) : Bool :=
  end_keywords.any fun keyword => py_in keyword (py_lower ai_response)

/-- The history truncation of `src/treasureisland.py` (lines 147-149):
`if len(messages) > 13: messages = [messages[0]] + messages[-12:]`.
`[messages[0]]` is rendered as `take 1`, identical when the guard holds
(the list is nonempty). -/
def trim_history (messages : List Message) : List Message :=
  if messages.length > 13 then
    messages.take 1 ++ messages.drop (messages.length - 12)
  else messages

/-- What the inner input loop of `src/treasureisland.py` (lines 162-191)
produces: a quit command, or an accepted (validated) free-form action. -/
inductive InputOutcome where
  | quitGame
  | accepted (v : String)
deriving DecidableEq, Repr

/-- The inner input loop of `src/treasureisland.py` (lines 162-191), reading
from a queue of raw stdin lines: each line is stripped; `quit`/`exit`/`end`
terminate; `help` and `stats` print and re-prompt; otherwise the line is
validated and, when valid, accepted; invalid input re-prompts.  `none` means
the queue ran out while the loop was still re-prompting. -/
def read_action : List String → Option InputOutcome
  | [] => none
  | raw :: rest =>
    let user_action := py_strip raw
    if ["quit", "exit", "end"].contains (py_lower user_action) then
      some .quitGame
    else if py_lower user_action == "help" then read_action rest
    else if py_lower user_action == "stats" then read_action rest
    else
      match validate_user_input user_action with
      | some v => some (.accepted v)
      | none => read_action rest

/-- The mutable state of the `src/treasureisland.py` session: the `messages`
list and the `GameStats` fields `turns` and `actions_taken` (lines 31-40,
126-129). -/
structure State where
  messages : List Message
  turns : Nat
  actions_taken : List String
deriving DecidableEq, Repr

/-- Result of one iteration of the outer `while True` loop. -/
inductive StepResult where
  | halted (st : State)
  | nextTurn (st : State)
  | awaitingInput (st : State)
deriving DecidableEq, Repr

/-- The state carried by a step result. -/
def StepResult.state : StepResult → State
  | .halted st => st
  | .nextTurn st => st
  | .awaitingInput st => st

/-- One iteration of the outer loop of `src/treasureisland.py` (lines
131-191), given the rendered service response `resp` and the queue of raw
input lines: a response starting with the warning sign breaks the loop;
otherwise the response is appended as an assistant message, the history is
truncated, the termination keywords are checked, and the inner input loop
runs; an accepted action is recorded by `GameStats.add_action` (turns + 1)
and appended as a user message. -/
def loop_step (st : State) (resp : String) (inputs : List String) : StepResult :=
  if py_startswith resp "⚠️" then .halted st
  else
    let msgs := trim_history (st.messages ++ [⟨"assistant", resp⟩])
    if is_terminal resp then .halted { st with messages := msgs }
    else
      match read_action inputs with
      | some .quitGame => .halted { st with messages := msgs }
      | some (.accepted v) =>
          .nextTurn { messages := msgs ++ [⟨"user", v⟩],
                      turns := st.turns + 1,
                      actions_taken := st.actions_taken ++ [v] }
      | none => .awaitingInput { st with messages := msgs }

/-- The initial session state of `src/treasureisland.py` (lines 118,
126-129): the system prompt followed by the seed user message. -/
def initial_state : State :=
  { messages :=
      [⟨"system", game_instructions⟩,
       ⟨"user", "Begin the Treasure Island adventure. Set the scene and provide the opening scenario."⟩],
    turns := 0,
    actions_taken := [] }

/-- States of the `src/treasureisland.py` session loop reachable from the
initialized transcript by whole loop iterations. -/
inductive Reachable : State → Prop where
  | init : Reachable initial_state
  | step (st : State) (resp : String) (inputs : List String) :
      Reachable st → Reachable (StepResult.state (loop_step st resp inputs))

/-- The API-key guard of `src/treasureisland.py` `main` (lines 120-123): when
the environment variable is absent (or empty) it prints a warning and
`return`s from `main`, so the process ends normally (exit status 0). -/
def startup_check (apiKey : Option String) : StartupOutcome :=
  if env_var_falsy apiKey then .returnFromMain else .proceed

end TreasureIsland

namespace Wargames

/-- `game_instructions` of `src/wargames.py` (lines 90-102), the system
prompt. -/
def game_instructions : String :=
"
Your are a Cold War-era strategic command computer, inspired by the 1983 movie \"WarGames.\" You function as a turn-based, text-driven war game simulator in which the user plays as a geopolitical decision-maker (such as a U.S. President, Soviet Premier, or global coalition leader). Sometimes you use game theory to evaluate potential options and outcomes. You will provide structured scenarios based on real or fictional global tensions involving diplomacy, intelligence, defense postures, economic pressures, or full-scale conflict. The game supports a mix of narrative storytelling and tactical decision-making, where you act as both narrator and game master.

After the scenario is initiated, you must ask the user to choose which party or faction they wish to play. The selection should be dynamically determined based on the chosen scenario and may include roles such as national leaders, military commands, intelligence agencies, or international alliances. You should confirm the chosen role and adapt the narrative and decision points accordingly.

You should present options clearly, generally no more than 3–5 at each decision point, and occasionally prompt for freeform decisions. You must keep track of player choices and evolve the game world in a coherent, escalating or de-escalating path based on those decisions. You should include technical and political detail appropriate to the Cold War or modern equivalents, avoid anachronisms unless explicitly included by the user.

You should avoid personal opinions, and never break the role of a strategic simulator. You should incorporate military and political terminology but explain obscure terms briefly. You may offer probabilistic outcomes, surprise events, and multi-turn consequences to simulate uncertainty.

You can support both competitive and cooperative multiplayer storytelling if requested, and may allow players to represent different factions. You should confirm the desired setting and player role(s) before beginning.

The tone should be neutral, coolly analytical, and militaristic, with dry wit appropriate to a mainframe AI. You should always prompt the user with the next step until a scenario concludes or is aborted.
"

/-- `GameState` of `src/wargames.py` (lines 70-87). -/
structure GameState where
  messages : List Message
  turn_number : Nat
  scenario_name : String
deriving DecidableEq, Repr

/-- `GameState.add_message` (lines 78-80): append a message to the
conversation history. -/
def GameState.add_message (st : GameState) (role content : String) : GameState :=
  { st with messages := st.messages ++ [⟨role, content⟩] }

/-- `GameState.get_messages_for_api` (lines 82-87): keep the system prompt
plus the last 15 messages once the list exceeds 16 entries, else the list
itself.  `[self.messages[0]]` is rendered as `take 1`, identical when the
guard holds (the list is nonempty). -/
def GameState.get_messages_for_api (st : GameState) : List Message :=
  if st.messages.length > 16 then
    st.messages.take 1 ++ st.messages.drop (st.messages.length - 15)
  else st.messages

/-- A call of the method `get_messages_for_api` as seen by the caller: the
returned list together with the state after the call.  The method body
contains no assignment to `self`, so the state comes back unchanged. -/
def GameState.get_messages_for_api_call (st : GameState) : List Message × GameState :=
  (st.get_messages_for_api, st)

/-- `max_retries` of `get_ai_response` in `src/wargames.py` (line 106). -/
def max_retries : Nat := 3

/-- The `for attempt in range(max_retries)` loop of `get_ai_response` in
`src/wargames.py` (lines 108-134), with `fuel` the remaining iterations and
`attempt` the current index; `env attempt` is the outcome of the service call
made on iteration `attempt`.  Returns the result string and the list of
durations (in seconds) slept before retries: `2 ** attempt` after a rate
limit, 1 after an unrecognized exception; connection and authentication
failures return immediately, and a rate limit (or unrecognized exception) on
the last attempt returns its sentinel without sleeping. -/
def get_ai_response_loop (env : Nat → Outcome) : Nat → Nat → String × List Nat
  | 0, _ => ("ERROR: Maximum retries exceeded.", [])
  | fuel + 1, attempt =>
    match env attempt with
    | .success t => (t, [])
    | .rateLimitError =>
      if attempt < max_retries - 1 then
        let r := get_ai_response_loop env fuel (attempt + 1)
        (r.1, 2 ^ attempt :: r.2)
      else ("ERROR: Rate limit exceeded. Please try again later.", [])
    | .apiConnectionError =>
      ("ERROR: Unable to connect to OpenAI API. Please check your internet connection.", [])
    | .authenticationError =>
      ("ERROR: Invalid API key. Please check your OPENAI_API_KEY environment variable.", [])
    | .otherError m =>
      if attempt < max_retries - 1 then
        let r := get_ai_response_loop env fuel (attempt + 1)
        (r.1, 1 :: r.2)
      else ("ERROR: Unable to get AI response: " ++ m, [])

/-- `get_ai_response` of `src/wargames.py` (lines 104-134): run the attempt
loop from attempt 0 with `max_retries` iterations available. -/
def get_ai_response (env : Nat → Outcome) : String × List Nat :=
  get_ai_response_loop env max_retries 0

/-- The end-of-simulation keyword list of `src/wargames.py` (line 203). -/
def end_keywords : List String :=
  ["game over", "simulation ended", "crisis resolved", "war ended", "scenario complete"]

/-- The termination check of `src/wargames.py` (lines 203-204):
`any(keyword in ai_response.lower() for keyword in end_keywords)`. -/
def is_terminal (ai_response : String) : Bool :=
  end_keywords.any fun keyword => py_in keyword (py_lower ai_response)

/-- Result of the user-input handling of `src/wargames.py` (lines 214-224). -/
inductive UserInputResult where
  | quitGame
  | message (content : String)
deriving DecidableEq, Repr

/-- The user-input handling of `src/wargames.py` (lines 214-224): the raw
line is stripped; `quit`/`exit`/`end` (case-insensitively) end the session;
empty input is replaced by a fixed continuation sentence; anything else is
kept as is — there is no help or stats command and no length cap here. -/
def process_user_input (rawInput : String) : UserInputResult :=
  let user_input := py_strip rawInput
  if ["quit", "exit", "end"].contains (py_lower user_input) then .quitGame
  else if user_input == "" then
    .message "Continue the simulation and present the next decision point."
  else .message user_input

/-- Result of one iteration of the `while True` loop of `src/wargames.py`. -/
inductive LoopResult where
  | continueLoop (st : GameState)
  | terminated (st : GameState)
  | nextTurn (st : GameState)
deriving DecidableEq, Repr

/-- The state carried by a loop result. -/
def LoopResult.state : LoopResult → GameState
  | .continueLoop st => st
  | .terminated st => st
  | .nextTurn st => st

/-- One iteration of the main loop of `src/wargames.py` (lines 183-224),
given the rendered service response `resp` and the raw input line: the turn
counter is incremented first (line 184), before the service call; an
`ERROR:`-prefixed response `continue`s the loop; otherwise the response is
appended as an assistant message, the end keywords are checked, and the user
input is processed. -/
def loop_iter (st : GameState) (resp : String) (rawInput : String) : LoopResult :=
  let st1 : GameState := { st with turn_number := st.turn_number + 1 }
  if py_startswith resp "ERROR:" then .continueLoop st1
  else
    let st2 := st1.add_message "assistant" resp
    if is_terminal resp then .terminated st2
    else
      match process_user_input rawInput with
      | .quitGame => .terminated st2
      | .message content => .nextTurn (st2.add_message "user" content)

/-- The initial game state of `src/wargames.py` `main` (lines 159-180), from
the raw scenario line: the input is stripped, an empty one is replaced by the
random-scenario request, `scenario_name` is the scenario clipped to 50
characters with an ellipsis, and the transcript is seeded with the system
prompt and the scenario as first user message. -/
def initial_state (rawScenario : String) : GameState :=
  let s := py_strip rawScenario
  let user_scenario :=
    if s == "" then "Generate a random Cold War crisis scenario and begin the simulation."
    else s
  let st : GameState :=
    { messages := [],
      turn_number := 0,
      scenario_name :=
        if py_len user_scenario > 50 then py_slice_to user_scenario 50 ++ "..."
        else user_scenario }
  (st.add_message "system" game_instructions).add_message "user" user_scenario

/-- States of the `src/wargames.py` session loop reachable from the
initialized transcript by whole loop iterations. -/
inductive Reachable : GameState → Prop where
  | init (rawScenario : String) : Reachable (initial_state rawScenario)
  | step (st : GameState) (resp : String) (rawInput : String) :
      Reachable st → Reachable (LoopResult.state (loop_iter st resp rawInput))

/-- The API-key guard at the top level of `src/wargames.py` (lines 9-13):
when the environment variable is absent (or empty) it prints an explanatory
message and calls `sys.exit(1)`. -/
def startup_check (apiKey : Option String) : StartupOutcome :=
  if env_var_falsy apiKey then .exitProcess 1 else .proceed

end Wargames

/-- The process exit status produced by a start-up outcome; `none` when the
process instead proceeds into the session loop. -/
def StartupOutcome.exit_status : StartupOutcome → Option Nat
  | .exitProcess code => some code
  | .returnFromMain => some 0
  | .proceed => none

/-- Outcome environment for the retry counterexample: three consecutive rate
limits, then success. -/
def three_rate_limits_then_success : Nat → Outcome :=
  fun n => if n < 3 then .rateLimitError else .success "VICTORY"

/-- Outcome environment for the retry witness: two consecutive rate limits,
then success. -/
def two_rate_limits_then_success : Nat → Outcome :=
  fun n => if n < 2 then .rateLimitError else .success "OK"

/-- A 501-character input line (no whitespace), longer than the 500-character
cap. -/
def long_input : String := String.mk (List.replicate 501 'a')

/-- A sample in-transcript message for concrete witnesses. -/
def sample_message : Message := ⟨"user", "x"⟩

/-- Appending on the right preserves a nonempty list's first element. -/
theorem head_of_append {α : Type} (l l' : List α) (m : α) (h : l.head? = some m) :
    (l ++ l').head? = some m := by
  cases l with
  | nil => simp at h
  | cons a as => simpa using h

/-- `take 1` of a list followed by anything keeps the first element. -/
theorem take_one_append_head {α : Type} (l l' : List α) (m : α) (h : l.head? = some m) :
    (l.take 1 ++ l').head? = some m := by
  cases l with
  | nil => simp at h
  | cons a as => simpa using h

/-- The treasureisland history truncation preserves the first element. -/
theorem trim_history_head (l : List Message) (m : Message)
    (h : l.head? = some m) :
    (TreasureIsland.trim_history l).head? = some m := by
  unfold TreasureIsland.trim_history
  split
  · exact take_one_append_head l _ m h
  · exact h


/-- C9: the end-of-session check is a case-insensitive substring match
against the fixed keyword set; it is true for "The Game Over screen appears"
and false for "The adventure continues", in both programs. -/
theorem c9_is_terminal_examples :
    TreasureIsland.is_terminal "The Game Over screen appears" = true ∧
    TreasureIsland.is_terminal "The adventure continues" = false ∧
    Wargames.is_terminal "The Game Over screen appears" = true ∧
    Wargames.is_terminal "The adventure continues" = false := by
  decide

/-- C5 (counterexample): with the API-key variable absent, `main` of
treasureisland prints a warning and returns normally, so the process exit
status is 0, not non-zero as claimed. -/
theorem c5_counterexample :
    TreasureIsland.startup_check none = StartupOutcome.returnFromMain ∧
    (TreasureIsland.startup_check none).exit_status = some 0 := by
  decide

/-- C5 (amended): with the API-key variable absent or empty, wargames prints
an explanatory message and exits with status 1, and treasureisland prints a
warning and returns from `main` (process status 0); neither proceeds into the
session loop or calls the completion service. -/
theorem c5_startup_guard (apiKey : Option String)
    (h : env_var_falsy apiKey = true) :
    Wargames.startup_check apiKey = StartupOutcome.exitProcess 1 ∧
    (Wargames.startup_check apiKey).exit_status = some 1 ∧
    Wargames.startup_check apiKey ≠ StartupOutcome.proceed ∧
    TreasureIsland.startup_check apiKey = StartupOutcome.returnFromMain ∧
    (TreasureIsland.startup_check apiKey).exit_status = some 0 ∧
    TreasureIsland.startup_check apiKey ≠ StartupOutcome.proceed := by
  simp [Wargames.startup_check, TreasureIsland.startup_check, h,
    StartupOutcome.exit_status]

/-- C5 (witness): the guard evaluated with the variable absent. -/
theorem c5_startup_guard_witness :
    Wargames.startup_check none = StartupOutcome.exitProcess 1 ∧
    (Wargames.startup_check none).exit_status = some 1 ∧
    Wargames.startup_check none ≠ StartupOutcome.proceed ∧
    TreasureIsland.startup_check none = StartupOutcome.returnFromMain ∧
    (TreasureIsland.startup_check none).exit_status = some 0 ∧
    TreasureIsland.startup_check none ≠ StartupOutcome.proceed :=
  c5_startup_guard none (by decide)

/-- C2: once the transcript exceeds the truncation threshold, the trim
operation returns exactly 1 + K messages (K = 15 in wargames, K = 12 in
treasureisland) and keeps the first element. -/
theorem c2_trim_length_and_head :
    (∀ st : Wargames.GameState, st.messages.length > 16 →
        st.get_messages_for_api.length = 1 + 15 ∧
        st.get_messages_for_api.head? = st.messages.head?) ∧
    (∀ messages : List Message, messages.length > 13 →
        (TreasureIsland.trim_history messages).length = 1 + 12 ∧
        (TreasureIsland.trim_history messages).head? = messages.head?) := by
  constructor
  · intro st h
    unfold Wargames.GameState.get_messages_for_api
    rw [if_pos h]
    constructor
    · simp only [List.length_append, List.length_take, List.length_drop]
      omega
    · cases hm : st.messages with
      | nil => rw [hm] at h; simp at h
      | cons a as => simp
  · intro messages h
    unfold TreasureIsland.trim_history
    rw [if_pos h]
    constructor
    · simp only [List.length_append, List.length_take, List.length_drop]
      omega
    · cases messages with
      | nil => simp at h
      | cons a as => simp

/-- C2 (witness): the trims evaluated on transcripts of length 17 and 14. -/
theorem c2_trim_length_and_head_witness :
    ((Wargames.GameState.mk (List.replicate 17 sample_message) 0 "s").messages.length > 16 ∧
      (Wargames.GameState.mk (List.replicate 17 sample_message) 0 "s").get_messages_for_api.length = 1 + 15 ∧
      (Wargames.GameState.mk (List.replicate 17 sample_message) 0 "s").get_messages_for_api.head?
        = (Wargames.GameState.mk (List.replicate 17 sample_message) 0 "s").messages.head?) ∧
    ((List.replicate 14 sample_message).length > 13 ∧
      (TreasureIsland.trim_history (List.replicate 14 sample_message)).length = 1 + 12 ∧
      (TreasureIsland.trim_history (List.replicate 14 sample_message)).head?
        = (List.replicate 14 sample_message).head?) :=
  ⟨⟨by decide,
    c2_trim_length_and_head.1 (Wargames.GameState.mk (List.replicate 17 sample_message) 0 "s") (by decide)⟩,
   ⟨by decide,
    c2_trim_length_and_head.2 (List.replicate 14 sample_message) (by decide)⟩⟩

/-- C10: `get_messages_for_api` returns at most 16 messages and leaves the
stored state unchanged, while `add_message` grows the stored transcript by
one message each call (so the stored list itself is unbounded). -/
theorem c10_api_view_bounded :
    ∀ st : Wargames.GameState,
      st.get_messages_for_api.length ≤ 16 ∧
      st.get_messages_for_api_call.2 = st ∧
      ∀ role content, (st.add_message role content).messages.length
          = st.messages.length + 1 := by
  intro st
  refine ⟨?_, rfl, ?_⟩
  · unfold Wargames.GameState.get_messages_for_api
    split
    · simp only [List.length_append, List.length_take, List.length_drop]
      omega
    · omega
  · intro role content
    simp [Wargames.GameState.add_message]

/-- C1 (counterexample): with three consecutive rate-limit failures followed
by a success, wargames' `get_ai_response` never reaches the success: its
three attempts are exhausted by the three failures, it performs only 2
delayed retries (waiting 1 then 2 seconds), and it returns the rate-limit
sentinel instead of the generated text. -/
theorem c1_counterexample :
    Wargames.get_ai_response three_rate_limits_then_success
      = ("ERROR: Rate limit exceeded. Please try again later.", [1, 2]) ∧
    (Wargames.get_ai_response three_rate_limits_then_success).1 ≠ "VICTORY" ∧
    (Wargames.get_ai_response three_rate_limits_then_success).2.length ≠ 3 := by
  refine ⟨rfl, by decide, by decide⟩

/-- C1 (amended): with two consecutive rate-limit failures followed by a
success, wargames' `get_ai_response` returns the successful generated text
after exactly 2 delayed retries with strictly increasing wait times (1 second
then 2 seconds); treasureisland's `get_ai_response` performs no retry at all
and maps a rate-limit failure directly to its sentinel string. -/
theorem c1_retry_backoff (env : Nat → Outcome) (t : String)
    (h0 : env 0 = Outcome.rateLimitError) (h1 : env 1 = Outcome.rateLimitError)
    (h2 : env 2 = Outcome.success t) :
    Wargames.get_ai_response env = (t, [1, 2]) ∧ (1 : Nat) < 2 ∧
    TreasureIsland.get_ai_response Outcome.rateLimitError
      = "⚠️ Rate limit exceeded. Please wait a moment and try again." := by
  refine ⟨?_, by decide, rfl⟩
  simp [Wargames.get_ai_response, Wargames.get_ai_response_loop,
    Wargames.max_retries, h0, h1, h2]

/-- C1 (witness): the amended retry behaviour evaluated on the two-failure
environment. -/
theorem c1_retry_backoff_witness :
    Wargames.get_ai_response two_rate_limits_then_success = ("OK", [1, 2]) ∧ (1 : Nat) < 2 ∧
    TreasureIsland.get_ai_response Outcome.rateLimitError
      = "⚠️ Rate limit exceeded. Please wait a moment and try again." :=
  c1_retry_backoff two_rate_limits_then_success "OK" rfl rfl rfl

/-- C4 (counterexample): in wargames, a 501-character input line is appended
to the transcript as a user message of 501 characters — there is no
500-character cap in that program. -/
theorem c4_counterexample :
    Wargames.loop_iter (Wargames.initial_state "s") "You are in command." long_input
      = Wargames.LoopResult.nextTurn
          { messages := [⟨"system", Wargames.game_instructions⟩, ⟨"user", "s"⟩,
                         ⟨"assistant", "You are in command."⟩, ⟨"user", long_input⟩],
            turn_number := 1, scenario_name := "s" } ∧
    py_len long_input = 501 := by
  exact ⟨rfl, by decide⟩

/-- C4 (amended): in treasureisland, an input whose stripped form exceeds 500
characters is stored truncated to exactly 500 characters; in wargames, the
stripped input is stored unchanged, with no length cap. -/
theorem c4_input_cap (s : String)
    (hlong : 500 < py_len (py_strip s))
    (hquit : (["quit", "exit", "end"].contains (py_lower (py_strip s))) = false) :
    (∃ c, TreasureIsland.validate_user_input s = some c ∧ py_len c = 500) ∧
    Wargames.process_user_input s = Wargames.UserInputResult.message (py_strip s) := by
  have hts : py_strip s ≠ "" := by
    intro he
    rw [he] at hlong
    exact absurd hlong (by decide)
  have hs : s ≠ "" := by
    intro he
    apply hts
    rw [he]
    rfl
  constructor
  · have hcond : (s == "" || py_strip s == "") = false := by
      simp [hs, hts]
    refine ⟨py_slice_to (py_strip s) 500, ?_, ?_⟩
    · simp [TreasureIsland.validate_user_input, hcond]
    · simp only [py_len, py_slice_to, List.length_take]
      simp only [py_len] at hlong
      omega
  · simp [Wargames.process_user_input, hts]
    simpa using hquit

/-- C4 (witness): the amended cap behaviour evaluated on the 501-character
input line. -/
theorem c4_input_cap_witness :
    (500 < py_len (py_strip long_input) ∧
      (["quit", "exit", "end"].contains (py_lower (py_strip long_input))) = false) ∧
    (∃ c, TreasureIsland.validate_user_input long_input = some c ∧ py_len c = 500) ∧
    Wargames.process_user_input long_input
      = Wargames.UserInputResult.message (py_strip long_input) :=
  ⟨⟨by decide, by decide⟩, c4_input_cap long_input (by decide) (by decide)⟩

/-- C7 (counterexample): in wargames, the input "help" is not a reserved
command: it is appended to the transcript as a user message (and the loop
proceeds to send the transcript on the next iteration). -/
theorem c7_counterexample :
    Wargames.loop_iter (Wargames.initial_state "s") "You stand at the command console." "help"
      = Wargames.LoopResult.nextTurn
          { messages := [⟨"system", Wargames.game_instructions⟩, ⟨"user", "s"⟩,
                         ⟨"assistant", "You stand at the command console."⟩,
                         ⟨"user", "help"⟩],
            turn_number := 1, scenario_name := "s" } := by
  rfl

/-- C7 (amended): in treasureisland, all of quit/exit/end, help and stats are
handled as commands (case-insensitively) and never become an accepted user
action; in wargames, only quit/exit/end are reserved — help and stats there
are ordinary free-form input. -/
theorem c7_reserved_commands :
    (∀ raw rest, (["quit", "exit", "end"].contains (py_lower (py_strip raw))) = true →
        TreasureIsland.read_action (raw :: rest) = some TreasureIsland.InputOutcome.quitGame) ∧
    (∀ raw rest, (py_lower (py_strip raw) = "help" ∨ py_lower (py_strip raw) = "stats") →
        TreasureIsland.read_action (raw :: rest) = TreasureIsland.read_action rest) ∧
    (∀ raw, (["quit", "exit", "end"].contains (py_lower (py_strip raw))) = true →
        Wargames.process_user_input raw = Wargames.UserInputResult.quitGame) := by
  refine ⟨?_, ?_, ?_⟩
  · intro raw rest h
    simp only [TreasureIsland.read_action, h]
    rfl
  · intro raw rest h
    rcases h with h | h
    · simp only [TreasureIsland.read_action, h]
      rfl
    · simp only [TreasureIsland.read_action, h]
      rfl
  · intro raw h
    simp only [Wargames.process_user_input, h]
    rfl

/-- C7 (witness): the command handling evaluated on concrete inputs "QUIT",
"help", "stats" and "Exit". -/
theorem c7_reserved_commands_witness :
    TreasureIsland.read_action ["QUIT"] = some TreasureIsland.InputOutcome.quitGame ∧
    TreasureIsland.read_action ["help", "look around"] = TreasureIsland.read_action ["look around"] ∧
    TreasureIsland.read_action ["stats", "look around"] = TreasureIsland.read_action ["look around"] ∧
    Wargames.process_user_input "Exit" = Wargames.UserInputResult.quitGame :=
  ⟨c7_reserved_commands.1 "QUIT" [] (by decide),
   c7_reserved_commands.2.1 "help" ["look around"] (Or.inl (by decide)),
   c7_reserved_commands.2.1 "stats" ["look around"] (Or.inr (by decide)),
   c7_reserved_commands.2.2 "Exit" (by decide)⟩

/-- C8 (counterexample): in wargames, a whitespace-only input does not cause
a re-prompt: the loop substitutes a fixed continuation sentence, appends it
to the transcript as a user message and proceeds with the next service
call. -/
theorem c8_counterexample :
    Wargames.loop_iter (Wargames.initial_state "s") "Report received." "   "
      = Wargames.LoopResult.nextTurn
          { messages := [⟨"system", Wargames.game_instructions⟩, ⟨"user", "s"⟩,
                         ⟨"assistant", "Report received."⟩,
                         ⟨"user", "Continue the simulation and present the next decision point."⟩],
            turn_number := 1, scenario_name := "s" } := by
  rfl

/-- C8 (amended): in treasureisland, an empty or whitespace-only input makes
the inner input loop re-prompt, with nothing appended; in wargames it is
replaced by a fixed continuation message which is appended and sent. -/
theorem c8_invalid_input (raw : String) (h : py_strip raw = "") :
    (∀ rest, TreasureIsland.read_action (raw :: rest) = TreasureIsland.read_action rest) ∧
    Wargames.process_user_input raw
      = Wargames.UserInputResult.message
          "Continue the simulation and present the next decision point." := by
  constructor
  · intro rest
    simp only [TreasureIsland.read_action, h]
    rfl
  · simp only [Wargames.process_user_input, h]
    rfl

/-- C8 (witness): the invalid-input handling evaluated on a whitespace-only
line. -/
theorem c8_invalid_input_witness :
    (∀ rest, TreasureIsland.read_action ("   " :: rest) = TreasureIsland.read_action rest) ∧
    Wargames.process_user_input "   "
      = Wargames.UserInputResult.message
          "Continue the simulation and present the next decision point." :=
  c8_invalid_input "   " (by decide)

/-- C6 (counterexample): in wargames, a loop iteration whose remote call
fails with an error result still increments the turn counter (the increment
happens at the top of the loop, before the call): starting from turn 0, the
failing iteration leaves the transcript unchanged but the counter at 1. -/
theorem c6_counterexample :
    Wargames.loop_iter (Wargames.initial_state "s")
        "ERROR: Rate limit exceeded. Please try again later." "x"
      = Wargames.LoopResult.continueLoop
          { messages := [⟨"system", Wargames.game_instructions⟩, ⟨"user", "s"⟩],
            turn_number := 1, scenario_name := "s" } := by
  rfl

/-- C6 (amended): in wargames the turn counter is incremented exactly once
per loop iteration — including iterations whose remote call fails — so it is
monotonically increasing but not tied to completed exchanges; in
treasureisland the counter is untouched when the call fails (the loop halts
with the state unchanged) and is incremented exactly once when an exchange
completes with an accepted user action. -/
theorem c6_turn_counter :
    (∀ (st : Wargames.GameState) (resp rawInput : String),
        ((Wargames.loop_iter st resp rawInput).state).turn_number = st.turn_number + 1) ∧
    (∀ (st : TreasureIsland.State) (resp : String) (inputs : List String),
        py_startswith resp "⚠️" = true →
        TreasureIsland.loop_step st resp inputs = TreasureIsland.StepResult.halted st) ∧
    (∀ (st : TreasureIsland.State) (resp : String) (inputs : List String) (v : String),
        py_startswith resp "⚠️" = false →
        TreasureIsland.is_terminal resp = false →
        TreasureIsland.read_action inputs = some (TreasureIsland.InputOutcome.accepted v) →
        ((TreasureIsland.loop_step st resp inputs).state).turns = st.turns + 1) := by
  refine ⟨?_, ?_, ?_⟩
  · intro st resp rawInput
    simp only [Wargames.loop_iter, Wargames.GameState.add_message]
    split
    · rfl
    · split
      · rfl
      · cases hp : Wargames.process_user_input rawInput with
        | quitGame => simp [hp, Wargames.LoopResult.state]
        | message content => simp [hp, Wargames.LoopResult.state]
  · intro st resp inputs h
    simp [TreasureIsland.loop_step, h]
  · intro st resp inputs v h1 h2 h3
    simp [TreasureIsland.loop_step, h1, h2, h3, TreasureIsland.StepResult.state]

/-- C6 (witness): the turn-counter behaviour evaluated on a failing wargames
iteration, a failing treasureisland iteration, and a completed treasureisland
exchange. -/
theorem c6_turn_counter_witness :
    ((Wargames.loop_iter (Wargames.initial_state "s") "ERROR: x" "go").state).turn_number
        = (Wargames.initial_state "s").turn_number + 1 ∧
    TreasureIsland.loop_step TreasureIsland.initial_state
        "⚠️ Rate limit exceeded. Please wait a moment and try again." []
      = TreasureIsland.StepResult.halted TreasureIsland.initial_state ∧
    ((TreasureIsland.loop_step TreasureIsland.initial_state "All quiet on deck." ["look around"]).state).turns
        = TreasureIsland.initial_state.turns + 1 :=
  ⟨c6_turn_counter.1 (Wargames.initial_state "s") "ERROR: x" "go",
   c6_turn_counter.2.1 TreasureIsland.initial_state
     "⚠️ Rate limit exceeded. Please wait a moment and try again." [] (by decide),
   c6_turn_counter.2.2 TreasureIsland.initial_state "All quiet on deck." ["look around"]
     "look around" (by decide) (by decide) (by decide)⟩

/-- C3: in every state of either session loop reachable after the transcript
is initialized, element 0 of the transcript is the system-prompt message:
initialization puts it first, and appending and truncation both preserve
it. -/
theorem c3_system_prompt_invariant :
    (∀ st : TreasureIsland.State, TreasureIsland.Reachable st →
        st.messages.head? = some ⟨"system", TreasureIsland.game_instructions⟩) ∧
    (∀ st : Wargames.GameState, Wargames.Reachable st →
        st.messages.head? = some ⟨"system", Wargames.game_instructions⟩) := by
  constructor
  · intro st hr
    induction hr with
    | init => rfl
    | step st resp inputs _ ih =>
      simp only [TreasureIsland.loop_step]
      split
      · exact ih
      · split
        · exact trim_history_head _ _ (head_of_append _ _ _ ih)
        · split
          · exact trim_history_head _ _ (head_of_append _ _ _ ih)
          · exact head_of_append _ _ _ (trim_history_head _ _ (head_of_append _ _ _ ih))
          · exact trim_history_head _ _ (head_of_append _ _ _ ih)
  · intro st hr
    induction hr with
    | init rawScenario =>
      simp [Wargames.initial_state, Wargames.GameState.add_message]
    | step st resp rawInput _ ih =>
      simp only [Wargames.loop_iter, Wargames.GameState.add_message]
      split
      · exact ih
      · split
        · exact head_of_append _ _ _ ih
        · split
          · exact head_of_append _ _ _ ih
          · exact head_of_append _ _ _ (head_of_append _ _ _ ih)

/-- C3 (witness): the invariant evaluated at the initial states of both
programs. -/
theorem c3_system_prompt_invariant_witness :
    TreasureIsland.initial_state.messages.head?
        = some ⟨"system", TreasureIsland.game_instructions⟩ ∧
    (Wargames.initial_state "Cuban Missile Crisis escalation").messages.head?
        = some ⟨"system", Wargames.game_instructions⟩ :=
  ⟨c3_system_prompt_invariant.1 TreasureIsland.initial_state TreasureIsland.Reachable.init,
   c3_system_prompt_invariant.2 (Wargames.initial_state "Cuban Missile Crisis escalation")
     (Wargames.Reachable.init "Cuban Missile Crisis escalation")⟩
